import Mathlib

/-!
Verification of the campus-map location directory (`src/prototype.py`).

The source is a single Streamlit/Folium script.  Its reproducible core is:
  * the fixed five-row location table (`locations`, source lines 16-28),
  * type filtering (line 163), case-insensitive name search (lines 176-181),
  * pairwise distance listing via `geopy.distance.geodesic` (lines 218-233),
  * map construction with an optional highlighted location (`create_map`,
    lines 42-132), and
  * the per-interaction highlight/center resolution (lines 172-200).

Numbers are embedded as exact rationals (the source's decimal literals are
exact), strings as `String`, fallible paths as `Except`.
-/

/-! ### Character/string utilities

Python's `str.lower()` is used by the source only on the ASCII location
names and search terms; we model it by the ASCII lowercase map.  Substring
containment models `pandas.Series.str.contains` (the source passes plain
alphanumeric terms; for such literal patterns `contains` is substring
matching). -/

/-- ASCII lowercase of one character, as Python's `str.lower` acts on the
ASCII names appearing in the source. -/
def lowerChar (c : Char) : Char :=
  if 65 ≤ c.toNat ∧ c.toNat ≤ 90 then Char.ofNat (c.toNat + 32) else c

/-- Lowercase a character list. -/
def lowerList (l : List Char) : List Char := l.map lowerChar

/-- Does the second list start with the first? -/
def startsWithL : List Char → List Char → Bool
  | [], _ => true
  | _ :: _, [] => false
  | a :: as, b :: bs => a == b && startsWithL as bs

/-- Is the first list a contiguous sublist of the second? -/
def containsSub : List Char → List Char → Bool
  | needle, [] => needle.isEmpty
  | needle, b :: bs => startsWithL needle (b :: bs) || containsSub needle bs

/-- Case-insensitive containment of `term` in `name`: models
`name.lower().contains(term.lower())` from source lines 177-179. -/
def matchB (term name : String) : Bool :=
  containsSub (lowerList term.data) (lowerList name.data)

/-! ### Integer and rational square root (used by the geodesic model) -/

/-- Bisection step for the integer square root; the invariant
`lo * lo ≤ n` is maintained, `fuel` bounds the iteration count. -/
def sqrtBisect (n : ℕ) : ℕ → ℕ → ℕ → ℕ
  | 0, lo, _ => lo
  | fuel + 1, lo, hi =>
    let m := (lo + hi + 1) / 2
    if m * m ≤ n then sqrtBisect n fuel m hi else sqrtBisect n fuel lo (m - 1)

/-- Integer square root by bisection (200 halvings cover every input that
occurs in this development). -/
def intSqrt (n : ℕ) : ℕ := sqrtBisect n 200 0 n

/-- Rational square root, exact to about `10 ^ (-6)`: scale by `10 ^ 12`,
take the integer square root, scale back.  Nonnegative by construction. -/
def ratSqrt (q : ℚ) : ℚ := (intSqrt (⌊q * 10 ^ 12⌋.toNat) : ℚ) / 10 ^ 6

/-! ### Data model (source lines 16-28)

The `locations` DataFrame has columns name / latitude / longitude / type /
radius; each row becomes one immutable `Location` record, in declaration
order. -/

structure Location where
  name : String
  latitude : ℚ
  longitude : ℚ
  type : String
  radius : ℚ
deriving DecidableEq, Repr

def mainGate : Location :=
  { name := "Main Gate", latitude := -0.3918, longitude := 36.9630
    type := "Entry", radius := 50 }

def library : Location :=
  { name := "Library", latitude := -0.3925, longitude := 36.9635
    type := "Academic", radius := 70 }

def administrationBlock : Location :=
  { name := "Administration Block", latitude := -0.3920, longitude := 36.9638
    type := "Administrative", radius := 60 }

def engineeringBlock : Location :=
  { name := "Engineering Block", latitude := -0.3928, longitude := 36.9632
    type := "Academic", radius := 80 }

def studentCenter : Location :=
  { name := "Student Center", latitude := -0.3922, longitude := 36.9640
    type := "Services", radius := 65 }

/-- The directory, in declaration order (source lines 16-28). -/
def locations : List Location :=
  [mainGate, library, administrationBlock, engineeringBlock, studentCenter]

/-- The spec's `all()` operation: every location in declaration order. -/
def allLocations : List Location := locations

/-- The distinct `type` values in first-occurrence order, as
`locations['type'].unique()` yields on source line 157. -/
def typeValues : List String :=
  ["Entry", "Academic", "Administrative", "Services"]

/-! ### Geodesic distance model

The source computes `geodesic(p, q).meters` with `geopy` (line 226), whose
code is not part of this repository.  Modelled from the spec: an
ellipsoidal-earth geodesic distance on WGS-84 ("not flat-Euclidean, not
simple haversine-sphere"), with the spec's coordinate validity ranges
latitude in [-90, 90] and longitude in [-180, 180] raising `InvalidInput`.

For the sub-kilometre separations of this directory the WGS-84 geodesic
equals, to far below the tolerances any claim mentions, the local
ellipsoidal-plane distance built from the meridional and prime-vertical
radii of curvature at the mean latitude.  That formula is embedded in exact
rational arithmetic: a rational approximation of pi accurate to 18 digits,
truncated Taylor polynomials for sine and cosine (the angles involved are
below 0.007 radians, making the truncation error below `10 ^ (-16)`
relative), a first-order binomial expansion of the curvature radii (error
below `10 ^ (-13)` relative), and `ratSqrt` (error below `10 ^ (-6)`
metres).  The model is exactly symmetric in its two points. -/

/-- Modelled from the spec: rational approximation of pi, 18 digits. -/
def piRat : ℚ := 3141592653589793238 / 10 ^ 18

/-- Modelled from the spec: degrees to radians. -/
def degToRad (d : ℚ) : ℚ := d * piRat / 180

/-- WGS-84 equatorial radius in meters. -/
def wgsA : ℚ := 6378137

/-- WGS-84 flattening `1 / 298.257223563`. -/
def wgsF : ℚ := 10 ^ 9 / 298257223563

/-- WGS-84 squared first eccentricity `f * (2 - f)`. -/
def wgsE2 : ℚ := wgsF * (2 - wgsF)

/-- Truncated Taylor polynomial for sine (adequate below 0.007 rad). -/
def sinApprox (x : ℚ) : ℚ := x - x * x * x / 6 + x * x * x * x * x / 120

/-- Truncated Taylor polynomial for cosine (adequate below 0.007 rad). -/
def cosApprox (x : ℚ) : ℚ := 1 - x * x / 2 + x * x * x * x / 24

/-- Mean latitude of the two points, in radians. -/
def midRad (p q : ℚ × ℚ) : ℚ := (degToRad p.1 + degToRad q.1) / 2

/-- Squared sine of the mean latitude. -/
def sin2m (p q : ℚ × ℚ) : ℚ := sinApprox (midRad p q) * sinApprox (midRad p q)

/-- Meridional radius of curvature `a (1 - e2) (1 - e2 s2) ^ (-3/2)`,
first-order in `e2 * s2`. -/
def meridionalRadius (s2 : ℚ) : ℚ := wgsA * (1 - wgsE2) * (1 + 3 / 2 * wgsE2 * s2)

/-- Prime-vertical radius of curvature `a (1 - e2 s2) ^ (-1/2)`,
first-order in `e2 * s2`. -/
def primeVerticalRadius (s2 : ℚ) : ℚ := wgsA * (1 + 1 / 2 * wgsE2 * s2)

/-- North-south displacement in meters. -/
def dNorth (p q : ℚ × ℚ) : ℚ :=
  meridionalRadius (sin2m p q) * (degToRad q.1 - degToRad p.1)

/-- East-west displacement in meters. -/
def dEast (p q : ℚ × ℚ) : ℚ :=
  primeVerticalRadius (sin2m p q) * cosApprox (midRad p q) * (degToRad q.2 - degToRad p.2)

/-- Squared planar distance in the local ellipsoidal tangent frame. -/
def planarSq (p q : ℚ × ℚ) : ℚ := dEast p q * dEast p q + dNorth p q * dNorth p q

/-- Modelled from the spec: the geodesic surface distance in meters between
two (latitude, longitude) points, the pure numeric part. -/
def geodesicMeters (p q : ℚ × ℚ) : ℚ := ratSqrt (planarSq p q)

/-- The error taxonomy of the spec for distance queries. -/
inductive GeoErr where
  | invalidInput
deriving DecidableEq, Repr

/-- Modelled from the spec: a (latitude, longitude) pair is valid when the
latitude lies in [-90, 90] and the longitude in [-180, 180]. -/
def validB (p : ℚ × ℚ) : Bool :=
  decide (-90 ≤ p.1) && decide (p.1 ≤ 90) && decide (-180 ≤ p.2) && decide (p.2 ≤ 180)

/-- Modelled from the spec: `geodesic(p, q).meters` (source line 226) —
fails with `InvalidInput` on out-of-range coordinates, otherwise returns
the geodesic distance in meters. -/
def geodesic (p q : ℚ × ℚ) : Except GeoErr ℚ :=
  if validB p && validB q then Except.ok (geodesicMeters p q)
  else Except.error GeoErr.invalidInput

/-! ### Directory operations -/

/-- Type filter over a directory: `locations[locations['type'] == t]`
(source line 163), preserving row order. -/
def byTypeDir (d : List Location) (t : String) : List Location :=
  d.filter (fun l => l.type == t)

/-- `byType` on the fixed directory. -/
def byType (t : String) : List Location := byTypeDir locations t

/-- Name search over a directory: case-insensitive containment against
`name` (source lines 177-179), guarded by the truthiness test of source
line 176 — an empty term never reaches the filter, so it matches nothing.
(`str.contains` treats the term as a regular expression; for the literal
terms considered here that is substring containment.) -/
def searchDir (d : List Location) (term : String) : List Location :=
  if term = "" then [] else d.filter (fun l => matchB term l.name)

/-- `search` on the fixed directory. -/
def search (term : String) : List Location := searchDir locations term

/-- The distance loop of source lines 222-230: walk the directory in row
order, skip the row whose name equals the origin's, compute the geodesic
distance to every other row; a distance error aborts the whole loop, as the
exception would in Python. -/
def distLoop (origin : Location) : List Location → Except GeoErr (List (String × ℚ))
  | [] => Except.ok []
  | row :: rest =>
    if row.name = origin.name then distLoop origin rest
    else
      match geodesic (origin.latitude, origin.longitude) (row.latitude, row.longitude) with
      | Except.error e => Except.error e
      | Except.ok d =>
        match distLoop origin rest with
        | Except.error e => Except.error e
        | Except.ok tail => Except.ok ((row.name, d) :: tail)

/-- `distancesFrom` over an explicit directory. -/
def distancesFromDir (d : List Location) (origin : Location) :
    Except GeoErr (List (String × ℚ)) :=
  distLoop origin d

/-- `distancesFrom` on the fixed directory (source lines 218-233). -/
def distancesFrom (origin : Location) : Except GeoErr (List (String × ℚ)) :=
  distancesFromDir locations origin

/-- The two-location directory of the spec's concrete distance scenario:
Main Gate and Library only. -/
def pairDirectory : List Location := [mainGate, library]

/-- Is an `Except` a success? -/
def exceptIsOk {ε α : Type} : Except ε α → Bool
  | Except.ok _ => true
  | Except.error _ => false

/-- The entry list of a distance result (empty on error). -/
def resList {ε : Type} : Except ε (List (String × ℚ)) → List (String × ℚ)
  | Except.ok l => l
  | Except.error _ => []

/-- First value stored under a key, 0 when absent. -/
def lookupD : List (String × ℚ) → String → ℚ
  | [], _ => 0
  | (n, d) :: rest, key => if n = key then d else lookupD rest key

/-! ### Map construction (`create_map`, source lines 42-132)

The source imports only `Draw` and the module `locate_control` from
`folium.plugins` (line 6).  The identifiers `DivIcon` (line 111) and
`Locate` (line 130) are therefore unbound: building the pulsing marker for
a highlighted row raises `NameError: name 'DivIcon' is not defined`, and
every call that survives the marker loop raises
`NameError: name 'Locate' is not defined` at line 130, before `return m`.
The embedding keeps both failure points. -/

/-- Python runtime errors reached by the translated code paths. -/
inductive PyErr where
  | nameError (ident : String)
  | indexError
deriving DecidableEq, Repr

/-- Python truthiness of the optional highlight name (`if highlight_name:`,
source line 51): `None` and the empty string are falsy. -/
def truthy : Option String → Bool
  | none => false
  | some s => !(s == "")

/-- Source line 56: `highlight_name and row['name'] == highlight_name`. -/
def isHighlightedB (h : Option String) (nm : String) : Bool :=
  truthy h && (h == some nm)

/-- One Folium marker: position, tooltip name, and whether it is the
pulsing highlight marker. -/
structure Marker where
  pos : ℚ × ℚ
  tooltip : String
  pulsing : Bool
deriving DecidableEq, Repr

/-- One highlight circle: center and radius in meters. -/
structure CircleSpec where
  center : ℚ × ℚ
  radius : ℚ
deriving DecidableEq, Repr

/-- The observable content of the Folium map being built. -/
structure FMap where
  center : ℚ × ℚ
  zoom : ℕ
  overlay : Option ((ℚ × ℚ) × (ℚ × ℚ))
  circles : List CircleSpec
  markers : List Marker
  draw : Bool
deriving DecidableEq, Repr

/-- The fixed campus bounding box of the dark overlay (source line 32). -/
def darkBounds : (ℚ × ℚ) × (ℚ × ℚ) :=
  ((-0.3950, 36.9600), (-0.3900, 36.9700))

/-- The map before the marker loop (source lines 44-52): center, zoom, and
the dark overlay exactly when a highlight name is truthy. -/
def baseMap (centerLat centerLon : ℚ) (zoom : ℕ) (h : Option String) : FMap :=
  { center := (centerLat, centerLon), zoom := zoom
    overlay := if truthy h then some darkBounds else none
    circles := [], markers := [], draw := false }

/-- The marker loop of source lines 55-114.  A non-highlighted row appends
a plain marker; a highlighted row adds the highlight circle and then
builds the pulsing marker with the unbound name `DivIcon`, raising
`NameError` (the partially built map is discarded with the exception). -/
def addMarkers (h : Option String) : FMap → List Location → Except PyErr FMap
  | m, [] => Except.ok m
  | m, row :: rest =>
    if isHighlightedB h row.name then
      Except.error (PyErr.nameError "DivIcon")
    else
      addMarkers h
        { m with markers := m.markers ++ [⟨(row.latitude, row.longitude), row.name, false⟩] }
        rest

/-- `create_map` (source lines 42-132): base map, marker loop, `Draw`
plugin, then the unbound name `Locate` on line 130 raises `NameError`
before `return m` — so no call ever returns a map. -/
def createMap (centerLat centerLon : ℚ) (zoom : ℕ) (h : Option String) :
    Except PyErr FMap :=
  match addMarkers h (baseMap centerLat centerLon zoom h) locations with
  | Except.error e => Except.error e
  | Except.ok m =>
    let _ := { m with draw := true }
    Except.error (PyErr.nameError "Locate")

/-! ### Per-interaction highlight resolution (source lines 172-200)

Each rerun computes which location is highlighted and where the map is
centered: a non-empty search term is tried first; only when the term is
empty does the dropdown selection apply; an unmatched non-empty term
highlights nothing even when a selection exists. -/

/-- The parameters the interaction logic passes to `create_map`. -/
structure Resolution where
  highlight : Option String
  center : ℚ × ℚ
  zoom : ℕ
deriving DecidableEq, Repr

/-- Default render parameters (`create_map()` defaults, source line 42). -/
def defaultResolution : Resolution :=
  { highlight := none, center := (-0.3923, 36.9634), zoom := 17 }

/-- Source lines 172-200.  With a non-empty term, the first row whose name
contains it (case-insensitively) is highlighted and centered at zoom 18; no
match means no highlight.  With an empty term, the (truthy) dropdown
selection is looked up by name — `.iloc[0]` on an empty frame would raise
`IndexError` — and highlighted at zoom 18.  Otherwise the defaults apply. -/
def resolveRender (searchTerm : String) (sel : Option String) :
    Except PyErr Resolution :=
  if searchTerm = "" then
    if truthy sel then
      match locations.find? (fun l => l.name == sel.getD "") with
      | some loc =>
        Except.ok { highlight := sel, center := (loc.latitude, loc.longitude), zoom := 18 }
      | none => Except.error PyErr.indexError
    else Except.ok defaultResolution
  else
    match locations.filter (fun l => matchB searchTerm l.name) with
    | found :: _ =>
      Except.ok { highlight := some found.name
                  center := (found.latitude, found.longitude), zoom := 18 }
    | [] => Except.ok defaultResolution

/-- An origin with an out-of-range latitude, for exercising the
`InvalidInput` path. -/
def offsite : Location :=
  { name := "Offsite", latitude := 200, longitude := 0
    type := "Test", radius := 1 }

/-! ### Helper lemmas -/

lemma startsWithL_self : ∀ l : List Char, startsWithL l l = true := by
  intro l
  induction l with
  | nil => rfl
  | cons a as ih => simp [startsWithL, ih]

lemma containsSub_self : ∀ l : List Char, containsSub l l = true := by
  intro l
  cases l with
  | nil => rfl
  | cons b bs => simp [containsSub, startsWithL_self]

lemma ratSqrt_nonneg (q : ℚ) : 0 ≤ ratSqrt q := by
  unfold ratSqrt
  positivity

lemma geodesicMeters_nonneg (p q : ℚ × ℚ) : 0 ≤ geodesicMeters p q := by
  unfold geodesicMeters
  exact ratSqrt_nonneg _

lemma midRad_symm (p q : ℚ × ℚ) : midRad q p = midRad p q := by
  unfold midRad
  ring

lemma sin2m_symm (p q : ℚ × ℚ) : sin2m q p = sin2m p q := by
  unfold sin2m
  rw [midRad_symm]

lemma planarSq_symm (p q : ℚ × ℚ) : planarSq q p = planarSq p q := by
  unfold planarSq dNorth dEast
  rw [sin2m_symm, midRad_symm]
  ring

lemma geodesicMeters_symm (p q : ℚ × ℚ) : geodesicMeters q p = geodesicMeters p q := by
  unfold geodesicMeters
  rw [planarSq_symm]

lemma validB_iff (p : ℚ × ℚ) :
    validB p = true ↔ (-90 ≤ p.1 ∧ p.1 ≤ 90 ∧ -180 ≤ p.2 ∧ p.2 ≤ 180) := by
  simp [validB, and_assoc]

lemma all_valid : ∀ r ∈ locations, validB (r.latitude, r.longitude) = true := by
  intro r hr
  simp only [locations, List.mem_cons, List.not_mem_nil, or_false] at hr
  rcases hr with rfl | rfl | rfl | rfl | rfl <;>
    rw [validB_iff] <;>
    refine ⟨by norm_num [mainGate, library, administrationBlock, engineeringBlock, studentCenter],
      by norm_num [mainGate, library, administrationBlock, engineeringBlock, studentCenter],
      by norm_num [mainGate, library, administrationBlock, engineeringBlock, studentCenter],
      by norm_num [mainGate, library, administrationBlock, engineeringBlock, studentCenter]⟩

lemma geodesic_ok {p q : ℚ × ℚ} (hp : validB p = true) (hq : validB q = true) :
    geodesic p q = Except.ok (geodesicMeters p q) := by
  simp [geodesic, hp, hq]

lemma geodesic_err {p q : ℚ × ℚ} (hp : validB p = false) :
    geodesic p q = Except.error GeoErr.invalidInput := by
  simp [geodesic, hp]

lemma distLoop_ok (o : Location) (ho : validB (o.latitude, o.longitude) = true) :
    ∀ d : List Location, (∀ r ∈ d, validB (r.latitude, r.longitude) = true) →
      distLoop o d = Except.ok ((d.filter (fun r => decide (r.name ≠ o.name))).map
        (fun r => (r.name, geodesicMeters (o.latitude, o.longitude) (r.latitude, r.longitude)))) := by
  intro d
  induction d with
  | nil => intro _; rfl
  | cons row rest ih =>
    intro hall
    have hrow := hall row (List.mem_cons_self _ _)
    have hrest := ih (fun r hr => hall r (List.mem_cons_of_mem _ hr))
    by_cases h : row.name = o.name
    · simp [distLoop, h, hrest, List.filter_cons]
    · simp [distLoop, h, geodesic_ok ho hrow, hrest, List.filter_cons]

lemma mainGate_mem : mainGate ∈ locations := by simp [locations]

lemma library_mem : library ∈ locations := by simp [locations]

lemma names_nodup : (locations.map Location.name).Nodup := by decide

lemma name_injective : ∀ A ∈ locations, ∀ B ∈ locations, A.name = B.name → A = B := by
  intro A hA B hB h
  simp only [locations, List.mem_cons, List.not_mem_nil, or_false] at hA hB
  rcases hA with rfl | rfl | rfl | rfl | rfl <;>
    rcases hB with rfl | rfl | rfl | rfl | rfl <;>
    first
      | rfl
      | exact absurd h (by decide)

lemma lookupD_keyed (g : Location → ℚ) :
    ∀ l : List Location, (l.map Location.name).Nodup → ∀ B ∈ l,
      lookupD (l.map (fun r => (r.name, g r))) B.name = g B := by
  intro l
  induction l with
  | nil => intro _ B hB; cases hB
  | cons r rest ih =>
    intro hnd B hB
    simp only [List.map_cons, List.nodup_cons] at hnd
    rcases List.mem_cons.mp hB with rfl | hBr
    · simp [lookupD]
    · have hne : r.name ≠ B.name := by
        intro he
        exact hnd.1 (he ▸ List.mem_map_of_mem Location.name hBr)
      simp [lookupD, hne, ih hnd.2 B hBr]

lemma reported_eq (A B : Location) (hA : A ∈ locations) (hB : B ∈ locations)
    (hne : B.name ≠ A.name) :
    lookupD (resList (distancesFrom A)) B.name =
      geodesicMeters (A.latitude, A.longitude) (B.latitude, B.longitude) := by
  have hd := distLoop_ok A (all_valid A hA) locations all_valid
  rw [distancesFrom, distancesFromDir, hd]
  simp only [resList]
  refine lookupD_keyed _ _ ?_ B ?_
  · exact ((List.filter_sublist _).map Location.name).nodup names_nodup
  · exact List.mem_filter.mpr ⟨hB, by simpa using hne⟩

lemma head_filter_eq_find (p : Location → Bool) :
    ∀ l : List Location, (l.filter p).head? = l.find? p := by
  intro l
  induction l with
  | nil => rfl
  | cons a rest ih =>
    by_cases h : p a
    · simp [List.filter_cons, List.find?, h]
    · simp [List.filter_cons, List.find?, h, ih]

lemma planar_mg_lib_floor :
    ⌊planarSq (mainGate.latitude, mainGate.longitude)
        (library.latitude, library.longitude) * 10 ^ 12⌋ = 9088937274780563 := by
  rw [Int.floor_eq_iff]
  constructor
  · unfold planarSq dEast dNorth meridionalRadius primeVerticalRadius sin2m cosApprox sinApprox midRad degToRad piRat wgsE2 wgsF wgsA mainGate library
    norm_num
  · unfold planarSq dEast dNorth meridionalRadius primeVerticalRadius sin2m cosApprox sinApprox midRad degToRad piRat wgsE2 wgsF wgsA mainGate library
    norm_num

lemma geodesicMeters_mg_lib :
    geodesicMeters (mainGate.latitude, mainGate.longitude)
      (library.latitude, library.longitude) = 95335918 / 10 ^ 6 := by
  unfold geodesicMeters ratSqrt
  rw [planar_mg_lib_floor]
  have h : intSqrt (Int.toNat 9088937274780563) = 95335918 := by decide
  rw [h]
  norm_num

lemma pair_distances :
    distancesFromDir pairDirectory mainGate =
      Except.ok [("Library",
        geodesicMeters (mainGate.latitude, mainGate.longitude)
          (library.latitude, library.longitude))] := by
  have h1 := all_valid mainGate mainGate_mem
  have h2 := all_valid library library_mem
  have hall : ∀ r ∈ pairDirectory, validB (r.latitude, r.longitude) = true := by
    intro r hr
    simp only [pairDirectory, List.mem_cons, List.not_mem_nil, or_false] at hr
    rcases hr with rfl | rfl
    · exact h1
    · exact h2
  rw [distancesFromDir, distLoop_ok mainGate h1 pairDirectory hall]
  have e1 : (decide (mainGate.name ≠ mainGate.name)) = false := by decide
  have e2 : ¬ library.name = mainGate.name := by decide
  rw [show pairDirectory.filter (fun r => decide (r.name ≠ mainGate.name)) = [library] from by
    simp [pairDirectory, List.filter_cons, e1, e2]]
  rfl

/-! ### Claim theorems -/

/-- C5: `search` returns matches in directory order (every result list is a
sublist of the directory), and for every location `L` in the directory,
searching any case-folding of `L.name` includes `L`. -/
theorem search_finds_every_location :
    (∀ t : String, (search t).Sublist locations) ∧
    (∀ L ∈ locations, ∀ t : String,
      lowerList t.data = lowerList L.name.data → L ∈ search t) := by
  constructor
  · intro t
    unfold search searchDir
    split
    · exact List.nil_sublist _
    · exact List.filter_sublist _
  · intro L hL t ht
    have hte : t ≠ "" := by
      intro he
      subst he
      have : L.name.data = [] := by
        have := ht.symm
        simpa [lowerList] using this
      have hne : L.name.data ≠ [] := by
        simp only [locations, List.mem_cons, List.not_mem_nil, or_false] at hL
        rcases hL with rfl | rfl | rfl | rfl | rfl <;> decide
      exact hne this
    unfold search searchDir
    rw [if_neg hte]
    refine List.mem_filter.mpr ⟨hL, ?_⟩
    unfold matchB
    rw [ht]
    exact containsSub_self _

/-- C5 witness: searching a mixed-case variant of "Main Gate" finds the
Main Gate record. -/
theorem search_finds_every_location_witness : mainGate ∈ search "mAIN gAte" :=
  search_finds_every_location.2 mainGate mainGate_mem "mAIN gAte" (by decide)

/-- C6: the empty search term matches nothing — `search ""` is the empty
sequence, deterministically so for every empty input. -/
theorem search_empty_term :
    search "" = [] ∧ ∀ t : String, t = "" → search t = [] := by
  refine ⟨rfl, ?_⟩
  intro t ht
  subst ht
  rfl

/-- C6 witness: the first clause instantiated through the second. -/
theorem search_empty_term_witness : search "" = [] :=
  search_empty_term.2 "" rfl

/-- C7 counterexample: on the two-location directory {Main Gate, Library},
`distancesFrom(Main Gate)` does return exactly one entry, for Library, but
its distance is not in the claimed 84-86 meter range (it is about 95.34 m). -/
theorem pair_distance_not_84_86 :
    distancesFromDir pairDirectory mainGate =
      Except.ok [("Library",
        geodesicMeters (mainGate.latitude, mainGate.longitude)
          (library.latitude, library.longitude))] ∧
    ¬(84 ≤ geodesicMeters (mainGate.latitude, mainGate.longitude)
            (library.latitude, library.longitude) ∧
      geodesicMeters (mainGate.latitude, mainGate.longitude)
            (library.latitude, library.longitude) ≤ 86) := by
  refine ⟨pair_distances, ?_⟩
  rw [geodesicMeters_mg_lib]
  norm_num

/-- C7 amended: on the two-location directory {Main Gate, Library},
`distancesFrom(Main Gate)` returns exactly one entry, for Library, whose
geodesic distance is approximately 95 meters (between 94 and 96). -/
theorem pair_distance_94_96 :
    distancesFromDir pairDirectory mainGate =
      Except.ok [("Library",
        geodesicMeters (mainGate.latitude, mainGate.longitude)
          (library.latitude, library.longitude))] ∧
    94 ≤ geodesicMeters (mainGate.latitude, mainGate.longitude)
          (library.latitude, library.longitude) ∧
    geodesicMeters (mainGate.latitude, mainGate.longitude)
          (library.latitude, library.longitude) ≤ 96 := by
  refine ⟨pair_distances, ?_, ?_⟩ <;>
    rw [geodesicMeters_mg_lib] <;> norm_num

/-- C4: `byType` partitions the directory: `typeValues` is exactly the set
of occurring type values, every location lies in `byType` of some listed
type and every `byType` member is a directory member, results for distinct
types are disjoint, each result preserves directory order, and an unmatched
type yields the empty sequence rather than an error. -/
theorem byType_partitions :
    (∀ t : String, t ∈ typeValues ↔ ∃ l ∈ locations, l.type = t) ∧
    (∀ l : Location, l ∈ locations ↔ ∃ t ∈ typeValues, l ∈ byType t) ∧
    (∀ t t' : String, t ≠ t' → ∀ l : Location, l ∈ byType t → l ∉ byType t') ∧
    (∀ t : String, (byType t).Sublist locations) ∧
    (∀ t : String, (∀ l ∈ locations, l.type ≠ t) → byType t = []) := by
  refine ⟨?_, ?_, ?_, ?_, ?_⟩
  · intro t
    constructor
    · intro ht
      simp only [typeValues, List.mem_cons, List.not_mem_nil, or_false] at ht
      rcases ht with rfl | rfl | rfl | rfl
      · exact ⟨mainGate, mainGate_mem, rfl⟩
      · exact ⟨library, library_mem, rfl⟩
      · exact ⟨administrationBlock, by simp [locations], rfl⟩
      · exact ⟨studentCenter, by simp [locations], rfl⟩
    · rintro ⟨l, hl, rfl⟩
      simp only [locations, List.mem_cons, List.not_mem_nil, or_false] at hl
      rcases hl with rfl | rfl | rfl | rfl | rfl <;> decide
  · intro l
    constructor
    · intro hl
      refine ⟨l.type, ?_, List.mem_filter.mpr ⟨hl, by simp⟩⟩
      simp only [locations, List.mem_cons, List.not_mem_nil, or_false] at hl
      rcases hl with rfl | rfl | rfl | rfl | rfl <;> decide
    · rintro ⟨t, _, hlt⟩
      simp only [byType, byTypeDir] at hlt
      exact List.mem_of_mem_filter hlt
  · intro t t' hne l hl hl'
    simp only [byType, byTypeDir, List.mem_filter, beq_iff_eq] at hl hl'
    exact hne (hl.2.symm.trans hl'.2)
  · intro t
    exact List.filter_sublist _
  · intro t ht
    unfold byType byTypeDir
    rw [List.filter_eq_nil_iff]
    intro l hl
    simp only [beq_iff_eq]
    exact ht l hl

/-- C4 witness: an unknown type yields the empty list, and the Academic
filter is an in-order selection of the directory. -/
theorem byType_partitions_witness :
    byType "Hostel" = [] ∧ (byType "Academic").Sublist locations :=
  ⟨byType_partitions.2.2.2.2 "Hostel" (by decide),
   byType_partitions.2.2.2.1 "Academic"⟩

/-- C1: for every origin in the directory, `distancesFrom` succeeds and
returns exactly `count(all()) - 1` entries — one per location other than
the origin, in directory order — never the origin itself, each with the
geodesic-model distance, and every distance is nonnegative. -/
theorem distancesFrom_complete (origin : Location) (h : origin ∈ locations) :
    exceptIsOk (distancesFrom origin) = true ∧
    (resList (distancesFrom origin)).length + 1 = allLocations.length ∧
    (∀ e ∈ resList (distancesFrom origin), e.1 ≠ origin.name ∧ 0 ≤ e.2) ∧
    (resList (distancesFrom origin)).map Prod.fst =
      (locations.filter (fun r => decide (r.name ≠ origin.name))).map Location.name ∧
    (resList (distancesFrom origin)).map Prod.snd =
      (locations.filter (fun r => decide (r.name ≠ origin.name))).map
        (fun r => geodesicMeters (origin.latitude, origin.longitude)
          (r.latitude, r.longitude)) := by
  have hd := distLoop_ok origin (all_valid origin h) locations all_valid
  have hres : resList (distancesFrom origin) =
      (locations.filter (fun r => decide (r.name ≠ origin.name))).map
        (fun r => (r.name, geodesicMeters (origin.latitude, origin.longitude)
          (r.latitude, r.longitude))) := by
    rw [distancesFrom, distancesFromDir, hd]
    rfl
  refine ⟨?_, ?_, ?_, ?_, ?_⟩
  · rw [distancesFrom, distancesFromDir, hd]
    rfl
  · rw [hres, List.length_map]
    simp only [locations, List.mem_cons, List.not_mem_nil, or_false] at h
    rcases h with rfl | rfl | rfl | rfl | rfl <;> decide
  · rw [hres]
    intro e he
    obtain ⟨r, hr, rfl⟩ := List.mem_map.mp he
    refine ⟨?_, geodesicMeters_nonneg _ _⟩
    have := (List.mem_filter.mp hr).2
    simpa using this
  · rw [hres, List.map_map]
    rfl
  · rw [hres, List.map_map]
    rfl

/-- C1 witness: the full conclusion instantiated at the Engineering Block
origin. -/
theorem distancesFrom_complete_witness :
    exceptIsOk (distancesFrom engineeringBlock) = true ∧
    (resList (distancesFrom engineeringBlock)).length + 1 = allLocations.length ∧
    (∀ e ∈ resList (distancesFrom engineeringBlock),
      e.1 ≠ engineeringBlock.name ∧ 0 ≤ e.2) ∧
    (resList (distancesFrom engineeringBlock)).map Prod.fst =
      (locations.filter (fun r => decide (r.name ≠ engineeringBlock.name))).map
        Location.name ∧
    (resList (distancesFrom engineeringBlock)).map Prod.snd =
      (locations.filter (fun r => decide (r.name ≠ engineeringBlock.name))).map
        (fun r => geodesicMeters (engineeringBlock.latitude, engineeringBlock.longitude)
          (r.latitude, r.longitude)) :=
  distancesFrom_complete engineeringBlock (by simp [locations])

/-- C2: `distancesFrom` fails with `InvalidInput` whenever the origin's
latitude is outside [-90, 90] or its longitude is outside [-180, 180], and
succeeds for every origin with in-range coordinates. -/
theorem distancesFrom_invalid_input :
    (∀ origin : Location,
      ¬(-90 ≤ origin.latitude ∧ origin.latitude ≤ 90 ∧
        -180 ≤ origin.longitude ∧ origin.longitude ≤ 180) →
      distancesFrom origin = Except.error GeoErr.invalidInput) ∧
    (∀ origin : Location,
      (-90 ≤ origin.latitude ∧ origin.latitude ≤ 90 ∧
       -180 ≤ origin.longitude ∧ origin.longitude ≤ 180) →
      exceptIsOk (distancesFrom origin) = true) := by
  constructor
  · intro origin hbad
    have hfalse : validB (origin.latitude, origin.longitude) = false := by
      rw [← Bool.not_eq_true, validB_iff]
      exact hbad
    rw [distancesFrom, distancesFromDir]
    by_cases h1 : mainGate.name = origin.name
    · have h2 : ¬ (library.name = origin.name) := by
        rw [← h1]
        decide
      simp [locations, distLoop, h1, h2, geodesic_err hfalse]
    · simp [locations, distLoop, h1, geodesic_err hfalse]
  · intro origin hgood
    have hv : validB (origin.latitude, origin.longitude) = true :=
      (validB_iff _).mpr hgood
    rw [distancesFrom, distancesFromDir, distLoop_ok origin hv locations all_valid]
    rfl

/-- C2 witness: an origin at latitude 200 fails with `InvalidInput`, while
the in-range Student Center origin succeeds. -/
theorem distancesFrom_invalid_input_witness :
    distancesFrom offsite = Except.error GeoErr.invalidInput ∧
    exceptIsOk (distancesFrom studentCenter) = true :=
  ⟨distancesFrom_invalid_input.1 offsite (by norm_num [offsite]),
   distancesFrom_invalid_input.2 studentCenter (by norm_num [studentCenter])⟩

/-- C3 (code bug evaluation): `create_map` never reaches either render
state.  With no highlight the call raises `NameError` on the unbound
identifier `Locate` (source line 130); with a highlighted directory name it
raises `NameError` on the unbound identifier `DivIcon` (source line 111);
no call at all returns a map. -/
theorem createMap_never_renders :
    createMap (-0.3923) 36.9634 17 none = Except.error (PyErr.nameError "Locate") ∧
    createMap library.latitude library.longitude 18 (some "Library") =
      Except.error (PyErr.nameError "DivIcon") ∧
    (∀ (clat clon : ℚ) (z : ℕ) (h : Option String),
      exceptIsOk (createMap clat clon z h) = false) := by
  refine ⟨rfl, rfl, ?_⟩
  intro clat clon z h
  unfold createMap
  cases hm : addMarkers h (baseMap clat clon z h) locations with
  | error e => rfl
  | ok m => rfl

/-- C8: distance symmetry — for distinct directory locations A and B, the
distance to B reported by `distancesFrom A` equals the distance to A
reported by `distancesFrom B` within a relative tolerance of `10 ^ (-6)`. -/
theorem distance_symmetry (A B : Location) (hA : A ∈ locations)
    (hB : B ∈ locations) (hAB : A ≠ B) :
    |lookupD (resList (distancesFrom A)) B.name -
        lookupD (resList (distancesFrom B)) A.name| ≤
      1 / 1000000 * |lookupD (resList (distancesFrom A)) B.name| := by
  have hnames : A.name ≠ B.name := fun hn => hAB (name_injective A hA B hB hn)
  have e1 := reported_eq A B hA hB (Ne.symm hnames)
  have e2 := reported_eq B A hB hA hnames
  rw [e1, e2, geodesicMeters_symm, sub_self, abs_zero]
  positivity

/-- C8 witness: symmetry instantiated at Administration Block and Student
Center. -/
theorem distance_symmetry_witness :
    |lookupD (resList (distancesFrom administrationBlock)) studentCenter.name -
        lookupD (resList (distancesFrom studentCenter)) administrationBlock.name| ≤
      1 / 1000000 *
        |lookupD (resList (distancesFrom administrationBlock)) studentCenter.name| :=
  distance_symmetry administrationBlock studentCenter (by simp [locations])
    (by simp [locations])
    (fun hcontra => absurd (congrArg Location.name hcontra) (by decide))

/-- C9: the directory is read-only: type filtering and search return
in-order sublists of the directory they are given (its records unchanged),
and every successful distance listing draws its entry names, in order, from
that directory. -/
theorem directory_read_only :
    (∀ (d : List Location) (t : String), (byTypeDir d t).Sublist d) ∧
    (∀ (d : List Location) (t : String), (searchDir d t).Sublist d) ∧
    (∀ (d : List Location) (o : Location) (l : List (String × ℚ)),
      distancesFromDir d o = Except.ok l →
      (l.map Prod.fst).Sublist (d.map Location.name)) := by
  refine ⟨?_, ?_, ?_⟩
  · intro d t
    exact List.filter_sublist _
  · intro d t
    unfold searchDir
    split
    · exact List.nil_sublist _
    · exact List.filter_sublist _
  · intro d o
    induction d with
    | nil =>
      intro l hl
      simp only [distancesFromDir, distLoop] at hl
      injection hl with hh
      subst hh
      simp
    | cons row rest ih =>
      intro l hl
      simp only [distancesFromDir, distLoop] at hl
      by_cases h : row.name = o.name
      · rw [if_pos h] at hl
        exact (ih l hl).cons _
      · rw [if_neg h] at hl
        cases hg : geodesic (o.latitude, o.longitude) (row.latitude, row.longitude) with
        | error e =>
          rw [hg] at hl
          cases hl
        | ok dist =>
          rw [hg] at hl
          cases ht : distLoop o rest with
          | error e =>
            rw [ht] at hl
            cases hl
          | ok tail =>
            rw [ht] at hl
            injection hl with hh
            subst hh
            simp only [List.map_cons]
            exact (ih tail ht).cons₂ _

/-- C9 witness: the three read-only facts instantiated on concrete
queries. -/
theorem directory_read_only_witness :
    (byTypeDir locations "Academic").Sublist locations ∧
    (searchDir locations "gate").Sublist locations ∧
    (([("Library",
        geodesicMeters (mainGate.latitude, mainGate.longitude)
          (library.latitude, library.longitude))].map Prod.fst).Sublist
      (pairDirectory.map Location.name)) :=
  ⟨directory_read_only.1 locations "Academic",
   directory_read_only.2.1 locations "gate",
   directory_read_only.2.2 pairDirectory mainGate _ pair_distances⟩

/-- C10: a non-empty matching search term takes precedence: the first match
in directory order is highlighted and centered at zoom 18 regardless of the
dropdown selection; a non-empty term with no match highlights nothing even
when a selection exists; and the head of the search result is the
directory-order first match. -/
theorem search_precedence :
    (∀ t : String, t ≠ "" →
      (search t).head? = locations.find? (fun l => matchB t l.name)) ∧
    (∀ (t : String) (L : Location) (rest : List Location) (sel : Option String),
      t ≠ "" → search t = L :: rest →
      resolveRender t sel = Except.ok
        { highlight := some L.name, center := (L.latitude, L.longitude), zoom := 18 }) ∧
    (∀ (t : String) (sel : Option String), t ≠ "" → search t = [] →
      resolveRender t sel = Except.ok defaultResolution) := by
  refine ⟨?_, ?_, ?_⟩
  · intro t ht
    unfold search searchDir
    rw [if_neg ht]
    exact head_filter_eq_find _ locations
  · intro t L rest sel ht hs
    unfold search searchDir at hs
    rw [if_neg ht] at hs
    unfold resolveRender
    rw [if_neg ht, hs]
  · intro t sel ht hs
    unfold search searchDir at hs
    rw [if_neg ht] at hs
    unfold resolveRender
    rw [if_neg ht, hs]

/-- C10 witness: searching "lib" highlights and centers the Library at zoom
18 even though the dropdown selects Main Gate. -/
theorem search_precedence_witness :
    resolveRender "lib" (some "Main Gate") = Except.ok
      { highlight := some library.name,
        center := (library.latitude, library.longitude), zoom := 18 } :=
  search_precedence.2.1 "lib" library [] (some "Main Gate") (by decide)
    (by
      have m1 : matchB "lib" mainGate.name = false := by decide
      have m2 : matchB "lib" library.name = true := by decide
      have m3 : matchB "lib" administrationBlock.name = false := by decide
      have m4 : matchB "lib" engineeringBlock.name = false := by decide
      have m5 : matchB "lib" studentCenter.name = false := by decide
      simp [search, searchDir, locations, List.filter_cons, m1, m2, m3, m4, m5])
